import Mathlib

/-!
Shallow embedding of the tiny-llm-cicd repository core logic.

Source files embedded:
* `src/api/app.py` — the `/generate` request handler: prompt assembly
  (line 37), tokenize / generate / decode (lines 38-53), and response
  post-processing (lines 55-58).
* `src/evaluate_model.py` — `calculate_perplexity` (lines 19-59) and the
  report / threshold / exit-code logic of `main` and `__main__`
  (lines 98-192).
* `src/create_tiny_model.py` — the GCS transfer helpers
  `download_model_from_gcs` (lines 55-69), `upload_model_to_gcs`
  (lines 72-81) and the control flow of `main` (lines 148-198).

External library calls (the HuggingFace tokenizer, the transformer model,
the `gsutil` subprocess) are abstracted as function parameters; Python
floats are modelled as rationals (`ℚ`), with `math.exp` kept symbolic
(see `PerplexityResult`).  Strings manipulated character by character are
modelled as `List Char`.
-/

namespace TinyLLM

/-- Python `str.strip()`: drop leading and trailing whitespace characters
(modelled with `Char.isWhitespace`). -/
def pyStrip (s : List Char) : List Char :=
  ((s.dropWhile Char.isWhitespace).reverse.dropWhile Char.isWhitespace).reverse

/-- Python `s.split(sep)` for a one-character separator.  Mirrors CPython
semantics: the result is never the empty list; splitting the empty string
yields `[""]`. -/
def pySplitOn (sep : Char) : List Char → List (List Char)
  | [] => [[]]
  | c :: rest =>
    if c = sep then [] :: pySplitOn sep rest
    else
      match pySplitOn sep rest with
      | [] => [[c]]
      | h :: t => (c :: h) :: t

/-- The role marker `"Bot:"` of `src/api/app.py` line 55. -/
def botMarker : List Char := ['B', 'o', 't', ':']

/-- Suffix of `s` strictly after the first occurrence of `pat`, or `none`
when `pat` does not occur.  `afterFirst pat s = some r` models the Python
pair `pat in s` (true) and `s.split(pat, 1)[-1] = r`. -/
def afterFirst (pat : List Char) : List Char → Option (List Char)
  | [] => if pat.isPrefixOf ([] : List Char) then some [] else none
  | c :: rest =>
    if pat.isPrefixOf (c :: rest) then some ((c :: rest).drop pat.length)
    else afterFirst pat rest

/-- Python `"Bot:" in s` (app.py line 55). -/
def containsMarker (s : List Char) : Bool := (afterFirst botMarker s).isSome

/-- Lines 55-57 of app.py:
`if "Bot:" in response_text: response_text = response_text.split("Bot:", 1)[-1].strip()`.
When the marker occurs, keep what follows its first occurrence and strip
it; otherwise the text is returned unchanged. -/
def extractResponse (s : List Char) : List Char :=
  match afterFirst botMarker s with
  | some rest => pyStrip rest
  | none => s

/-- Boolean check that a character list has neither a leading nor a
trailing whitespace character. -/
def noEdgeWhitespace (s : List Char) : Bool :=
  (match s.head? with | some c => !c.isWhitespace | none => true) &&
  (match s.getLast? with | some c => !c.isWhitespace | none => true)

/-- Line 35 of app.py: `user_input = data.get("prompt", "")` — the payload
either carries a prompt string or does not. -/
def userInputOf (payload : Option String) : String := payload.getD ""

/-- Line 37 of app.py:
`combined_prompt = f"{system_prompt}\nUser: {user_input}\nBot:"`. -/
def combinedPrompt (system_prompt user_input : String) : String :=
  system_prompt ++ "\nUser: " ++ user_input ++ "\nBot:"

/-- The fixed decoding configuration passed to `model.generate`
(app.py lines 41-49). -/
structure GenerationConfig where
  max_new_tokens : Int
  do_sample : Bool
  top_k : Nat
  top_p : ℚ
  temperature : ℚ
  deriving DecidableEq, Repr

/-- The literal configuration of app.py lines 43-47. -/
def appGenerationConfig : GenerationConfig :=
  { max_new_tokens := 50, do_sample := true, top_k := 50,
    top_p := 95 / 100, temperature := 1 }

/-- A Flask response as produced by the handler: `jsonify({"response": body})`
with its HTTP status. -/
structure HttpResponse where
  status : Nat
  body : String
  deriving DecidableEq, Repr

/-- Lines 32-58 of app.py, the `/generate` handler.  The external
tokenizer (`encode`, `decode`) and model (`generate`) are parameters;
`payload` is the optional `"prompt"` entry of the request JSON.  The
handler slices the generation output at the input length (line 52),
decodes only that slice (line 53), post-processes it (lines 55-56) and
returns a 200 JSON response (line 58); it contains no error branch. -/
def generate_text (encode : String → List Nat)
    (generate : GenerationConfig → List Nat → List Nat)
    (decode : List Nat → String)
    (system_prompt : String) (payload : Option String) : HttpResponse :=
  let user_input := userInputOf payload
  let combined_prompt := combinedPrompt system_prompt user_input
  let input_ids := encode combined_prompt
  let output := generate appGenerationConfig input_ids
  let generated_ids := output.drop input_ids.length
  let response_text := decode generated_ids
  { status := 200, body := String.mk (extractResponse response_text.data) }

/-- Exceptions the embedded evaluation code can raise. -/
inductive PyError
  | zeroDivisionError
  deriving DecidableEq, Repr

/-- Return value of `calculate_perplexity`.  `PerplexityResult.inf` is the
Python `float('inf')`; `PerplexityResult.exp a` stands for the float
`math.exp(a)` — `math.exp` is kept symbolic, so equality of results is
equality of the (monotone, injective) exponents. -/
inductive PerplexityResult
  | inf
  | exp (avg_loss : ℚ)
  deriving DecidableEq, Repr

/-- Line 40 of evaluate_model.py: tokenize one line with truncation at
`max_length`. -/
def lineTokens (tokenize : List Char → List Nat) (max_length : Nat)
    (text : List Char) : List Nat :=
  (tokenize text).take max_length

/-- Loop body of lines 38-49 of evaluate_model.py: add
`loss * input_ids.size(1)` to the running loss and `input_ids.size(1)` to
the running token count. -/
def perplexityStep (tokenize : List Char → List Nat) (lossOf : List Nat → ℚ)
    (max_length : Nat) (acc : ℚ × ℕ) (text : List Char) : ℚ × ℕ :=
  let input_ids := lineTokens tokenize max_length text
  (acc.1 + lossOf input_ids * (input_ids.length : ℚ), acc.2 + input_ids.length)

/-- Total token count of a list of lines (the final value of
`total_tokens`). -/
def totalTokens (tokenize : List Char → List Nat) (max_length : Nat)
    (ts : List (List Char)) : ℕ :=
  (ts.map fun t => (lineTokens tokenize max_length t).length).sum

/-- Token-count-weighted total loss of a list of lines (the final value of
`total_loss`). -/
def totalWeightedLoss (tokenize : List Char → List Nat) (lossOf : List Nat → ℚ)
    (max_length : Nat) (ts : List (List Char)) : ℚ :=
  (ts.map fun t =>
    lossOf (lineTokens tokenize max_length t) *
      ((lineTokens tokenize max_length t).length : ℚ)).sum

/-- Line 28 of evaluate_model.py:
`validation_texts = f.read().strip().split("\n")`. -/
def corpusLines (fileContent : List Char) : List (List Char) :=
  pySplitOn '\n' (pyStrip fileContent)

/-- Lines 19-59 of evaluate_model.py, `calculate_perplexity`.  The external
tokenizer and the per-sequence model loss are parameters (`tokenize`,
`lossOf`); `fileContent` is the text of the validation file.  The final
division `total_loss / total_tokens` raises `ZeroDivisionError` when
`total_tokens` is zero, exactly as the Python float division does. -/
def calculate_perplexity (tokenize : List Char → List Nat)
    (lossOf : List Nat → ℚ) (max_length : Nat) (fileContent : List Char) :
    Except PyError PerplexityResult :=
  let validation_texts := corpusLines fileContent
  if validation_texts.isEmpty then .ok .inf
  else
    let totals := validation_texts.foldl
      (perplexityStep tokenize lossOf max_length) (0, 0)
    if totals.2 = 0 then .error .zeroDivisionError
    else .ok (.exp (totals.1 / (totals.2 : ℚ)))

/-- The evaluation report of lines 132-137 of evaluate_model.py, with the
JSON keys as fields.  Perplexity and threshold floats are modelled as
rationals. -/
structure EvaluationReport where
  perplexity : ℚ
  perplexity_threshold : ℚ
  sample_generations : List (String × String)
  evaluation_passed : Bool
  deriving DecidableEq, Repr

/-- Lines 132-137: build the results dictionary;
`"evaluation_passed": perplexity <= perplexity_threshold`. -/
def buildEvaluationResults (perplexity threshold : ℚ)
    (samples : List (String × String)) : EvaluationReport :=
  { perplexity := perplexity, perplexity_threshold := threshold,
    sample_generations := samples,
    evaluation_passed := decide (perplexity ≤ threshold) }

/-- Lines 146-151: `main` returns `True` iff
`perplexity <= perplexity_threshold`. -/
def mainSuccess (perplexity threshold : ℚ) : Bool :=
  decide (perplexity ≤ threshold)

/-- Line 192: `exit(0 if success else 1)`. -/
def exitCode (success : Bool) : Nat := if success then 0 else 1

/-- Lines 111-151 plus the `__main__` block of evaluate_model.py, with the
two fallible computations (`calculate_perplexity`, the sample-generation
loop) represented by their outcomes.  An exception in either propagates
out of `main` before the output file is opened on line 141, so no file is
written and the interpreter exits with code 1; otherwise the report is
built, written when an output file is configured, and the exit code
reflects the threshold test.  The result is the pair
(content written to the output file, process exit code). -/
def evalMain (perp : Except PyError ℚ)
    (samples : Except PyError (List (String × String)))
    (output_file : Bool) (threshold : ℚ) :
    Option EvaluationReport × Nat :=
  match perp with
  | .error _ => (none, 1)
  | .ok p =>
    match samples with
    | .error _ => (none, 1)
    | .ok ss =>
      let results := buildEvaluationResults p threshold ss
      ((if output_file then some results else none),
        exitCode (mainSuccess p threshold))

/-- The error raised by `subprocess.check_call` on a non-zero `gsutil`
exit. -/
inductive SubprocessError
  | calledProcessError
  deriving DecidableEq, Repr

/-- A `gsutil -m cp -r` invocation via `subprocess.check_call`, summarized
by the subprocess exit code it happens to produce. -/
def gsutilCp (exit_code : Nat) : Except SubprocessError Unit :=
  if exit_code = 0 then .ok () else .error .calledProcessError

/-- Lines 55-69 of create_tiny_model.py: the download wraps `check_call`
in `try/except CalledProcessError`, returning `False` on failure. -/
def download_model_from_gcs (downloadExit : Nat) : Bool :=
  match gsutilCp downloadExit with
  | .ok _ => true
  | .error _ => false

/-- Lines 72-81 of create_tiny_model.py: the upload calls `check_call`
with no `try/except`, so a failure propagates. -/
def upload_model_to_gcs (uploadExit : Nat) : Except SubprocessError Unit :=
  gsutilCp uploadExit

/-- How a run of create_tiny_model.py's `main` ends when no exception
escapes. -/
inductive CreateOutcome
  | usedGcsModel
  | savedLocally
  deriving DecidableEq, Repr

/-- Lines 148-198 of create_tiny_model.py, `main`.  `gcs_path` records
whether a non-empty GCS path was supplied; `downloadExit` / `uploadExit`
are the exit codes of the corresponding `gsutil` subprocesses.  With a
GCS path and no forced training, a successful download returns early;
otherwise the local download/fine-tune/save path runs (the `train` flag
only selects fine-tuning, which always completes here), and with a GCS
path the model is then uploaded — an upload failure propagates out of
`main`. -/
def create_main (train force_train : Bool) (gcs_path : Bool)
    (downloadExit uploadExit : Nat) : Except SubprocessError CreateOutcome :=
  if gcs_path && !force_train && download_model_from_gcs downloadExit then
    .ok .usedGcsModel
  else
    if gcs_path then
      match upload_model_to_gcs uploadExit with
      | .ok _ => .ok .savedLocally
      | .error e => .error e
    else .ok .savedLocally

/-! Helper lemmas. -/

theorem pySplitOn_ne_nil (sep : Char) (s : List Char) : pySplitOn sep s ≠ [] := by
  induction s with
  | nil => simp [pySplitOn]
  | cons c rest ih =>
    simp only [pySplitOn]
    split
    · simp
    · split
      · simp
      · simp

theorem head?_dropWhile_not (p : Char → Bool) (l : List Char) (c : Char)
    (h : (l.dropWhile p).head? = some c) : p c = false := by
  induction l with
  | nil => simp [List.dropWhile] at h
  | cons a l ih =>
    rw [List.dropWhile_cons] at h
    by_cases hp : p a = true
    · rw [if_pos hp] at h
      exact ih h
    · rw [if_neg hp] at h
      simp only [List.head?_cons, Option.some.injEq] at h
      subst h
      exact Bool.eq_false_iff.mpr hp

theorem getLast?_dropWhile (p : Char → Bool) (l : List Char)
    (h : l.dropWhile p ≠ []) : (l.dropWhile p).getLast? = l.getLast? := by
  induction l with
  | nil => simp [List.dropWhile] at h
  | cons a l ih =>
    rw [List.dropWhile_cons] at h ⊢
    by_cases hp : p a = true
    · rw [if_pos hp] at h ⊢
      have hl : l ≠ [] := by
        intro he
        subst he
        simp [List.dropWhile] at h
      rw [ih h]
      cases l with
      | nil => exact absurd rfl hl
      | cons b t => rw [List.getLast?_cons_cons]
    · rw [if_neg hp]

theorem pyStrip_head (s : List Char) (c : Char)
    (h : (pyStrip s).head? = some c) : c.isWhitespace = false := by
  unfold pyStrip at h
  rw [List.head?_reverse] at h
  have hne : (s.dropWhile Char.isWhitespace).reverse.dropWhile Char.isWhitespace ≠ [] := by
    intro he
    rw [he] at h
    simp at h
  rw [getLast?_dropWhile _ _ hne, List.getLast?_reverse] at h
  exact head?_dropWhile_not _ _ _ h

theorem pyStrip_getLast (s : List Char) (c : Char)
    (h : (pyStrip s).getLast? = some c) : c.isWhitespace = false := by
  unfold pyStrip at h
  rw [List.getLast?_reverse] at h
  exact head?_dropWhile_not _ _ _ h

theorem pyStrip_noEdge (s : List Char) : noEdgeWhitespace (pyStrip s) = true := by
  unfold noEdgeWhitespace
  rw [Bool.and_eq_true]
  constructor
  · cases h : (pyStrip s).head? with
    | none => rfl
    | some c => simp [pyStrip_head s c h]
  · cases h : (pyStrip s).getLast? with
    | none => rfl
    | some c => simp [pyStrip_getLast s c h]

theorem foldl_perplexityStep (tokenize : List Char → List Nat)
    (lossOf : List Nat → ℚ) (max_length : Nat) (ts : List (List Char))
    (a : ℚ) (n : ℕ) :
    ts.foldl (perplexityStep tokenize lossOf max_length) (a, n)
      = (a + totalWeightedLoss tokenize lossOf max_length ts,
         n + totalTokens tokenize max_length ts) := by
  induction ts generalizing a n with
  | nil => simp [totalWeightedLoss, totalTokens]
  | cons t ts ih =>
    simp only [List.foldl_cons, perplexityStep, ih, totalWeightedLoss,
      totalTokens, List.map_cons, List.sum_cons, Prod.mk.injEq]
    constructor
    · ring
    · omega

theorem calculate_perplexity_of_tokens_ne_zero (tokenize : List Char → List Nat)
    (lossOf : List Nat → ℚ) (max_length : Nat) (c : List Char)
    (h : totalTokens tokenize max_length (corpusLines c) ≠ 0) :
    calculate_perplexity tokenize lossOf max_length c
      = .ok (.exp (totalWeightedLoss tokenize lossOf max_length (corpusLines c)
          / (totalTokens tokenize max_length (corpusLines c) : ℚ))) := by
  have hne : (corpusLines c).isEmpty = false := by
    cases hc : corpusLines c with
    | nil => exact absurd hc (pySplitOn_ne_nil _ _)
    | cons x xs => rfl
  simp only [calculate_perplexity, hne, Bool.false_eq_true, if_false,
    foldl_perplexityStep, zero_add]
  rw [if_neg h]

/-! Claim theorems. -/

/-- C1: for every corpus whose lines tokenize to sequences with
per-sequence average losses, `calculate_perplexity` returns the
perplexity `exp((Σᵢ lᵢ·lenᵢ)/(Σᵢ lenᵢ))` — the token-count-weighted
aggregate — and consequently any two corpora with the same total token
count and the same total per-token loss yield the same aggregate
perplexity regardless of how tokens are distributed across lines. -/
theorem C1_token_weighted_perplexity (tokenize : List Char → List Nat)
    (lossOf : List Nat → ℚ) (max_length : Nat) (c₁ c₂ : List Char)
    (h₁ : totalTokens tokenize max_length (corpusLines c₁) ≠ 0)
    (heqT : totalTokens tokenize max_length (corpusLines c₂)
      = totalTokens tokenize max_length (corpusLines c₁))
    (heqL : totalWeightedLoss tokenize lossOf max_length (corpusLines c₂)
      = totalWeightedLoss tokenize lossOf max_length (corpusLines c₁)) :
    calculate_perplexity tokenize lossOf max_length c₁
      = .ok (.exp (totalWeightedLoss tokenize lossOf max_length (corpusLines c₁)
          / (totalTokens tokenize max_length (corpusLines c₁) : ℚ))) ∧
    calculate_perplexity tokenize lossOf max_length c₂
      = calculate_perplexity tokenize lossOf max_length c₁ := by
  have h₂ : totalTokens tokenize max_length (corpusLines c₂) ≠ 0 := by
    rw [heqT]
    exact h₁
  refine ⟨calculate_perplexity_of_tokens_ne_zero _ _ _ _ h₁, ?_⟩
  rw [calculate_perplexity_of_tokens_ne_zero _ _ _ _ h₁,
    calculate_perplexity_of_tokens_ne_zero _ _ _ _ h₂, heqT, heqL]

/-- Witness for C1: the corpora `"ab\ncd"` (two lines of two characters)
and `"a\nbcd"` (lines of one and three characters) have the same total
token count (4) and, under a constant per-sequence loss of 2, the same
weighted total loss (8); both evaluate to `exp (8/4)`. -/
theorem C1_token_weighted_perplexity_witness :
    calculate_perplexity (fun t => t.map Char.toNat) (fun _ => 2) 128 "ab\ncd".data
      = .ok (.exp (totalWeightedLoss (fun t => t.map Char.toNat) (fun _ => 2) 128
          (corpusLines "ab\ncd".data)
          / (totalTokens (fun t => t.map Char.toNat) 128 (corpusLines "ab\ncd".data) : ℚ))) ∧
    calculate_perplexity (fun t => t.map Char.toNat) (fun _ => 2) 128 "a\nbcd".data
      = calculate_perplexity (fun t => t.map Char.toNat) (fun _ => 2) 128 "ab\ncd".data :=
  C1_token_weighted_perplexity (fun t => t.map Char.toNat) (fun _ => 2) 128
    "ab\ncd".data "a\nbcd".data (by decide) (by decide)
    (by
      have e1 : corpusLines "ab\ncd".data = [['a', 'b'], ['c', 'd']] := by decide
      have e2 : corpusLines "a\nbcd".data = [['a'], ['b', 'c', 'd']] := by decide
      rw [e1, e2]
      norm_num [totalWeightedLoss, lineTokens])

/-- C3: on an empty validation file the empty-list guard of line 30 is
dead code — `"".strip().split("\n")` is `[""]`, never `[]` — so with a
tokenizer mapping the empty line to zero tokens the function reaches the
division `total_loss / total_tokens` with `total_tokens = 0` and raises
`ZeroDivisionError` instead of returning `float('inf')`. -/
theorem C3_empty_corpus_zero_division :
    corpusLines "".data = [[]] ∧
    (corpusLines "".data).isEmpty = false ∧
    calculate_perplexity (fun t => t.map Char.toNat) (fun _ => 2) 128 "".data
      = .error .zeroDivisionError :=
  ⟨by decide, by decide, rfl⟩

/-- C2 counterexample: on the input `" hi "`, which does not contain the
marker `"Bot:"`, the handler returns the text unchanged — with its
leading and trailing whitespace — refuting both "returns x trimmed when
the marker does not occur" and "the result never has leading or trailing
whitespace". -/
theorem C2_counterexample :
    extractResponse " hi ".data = " hi ".data ∧
    noEdgeWhitespace (extractResponse " hi ".data) = false ∧
    extractResponse " hi ".data ≠ pyStrip " hi ".data := by
  decide

/-- C2 (amended): when the marker `"Bot:"` occurs in the input,
`extractResponse` returns the substring after its first occurrence with
leading and trailing whitespace removed (so that result has no edge
whitespace); when the marker does not occur, the input is returned
unchanged, whitespace included. -/
theorem C2_marker_extraction (x : List Char) :
    (∀ rest, afterFirst botMarker x = some rest →
      extractResponse x = pyStrip rest ∧
        noEdgeWhitespace (extractResponse x) = true) ∧
    (afterFirst botMarker x = none → extractResponse x = x) := by
  constructor
  · intro rest h
    have hx : extractResponse x = pyStrip rest := by
      unfold extractResponse
      rw [h]
    exact ⟨hx, by rw [hx]; exact pyStrip_noEdge rest⟩
  · intro h
    unfold extractResponse
    rw [h]

/-- Witness for C2 (amended): `"x Bot:  hi  "` contains the marker and
extracts to the stripped remainder `"hi"`. -/
theorem C2_marker_extraction_witness :
    extractResponse "x Bot:  hi  ".data = pyStrip "  hi  ".data ∧
    noEdgeWhitespace (extractResponse "x Bot:  hi  ".data) = true :=
  (C2_marker_extraction "x Bot:  hi  ".data).1 "  hi  ".data (by decide)

/-- C7: on every input that does not contain the marker `"Bot:"`, the
response post-processing is idempotent (it is the identity there). -/
theorem C7_extract_idempotent (x : List Char)
    (h : containsMarker x = false) :
    extractResponse (extractResponse x) = extractResponse x := by
  have hn : afterFirst botMarker x = none := by
    cases hx : afterFirst botMarker x with
    | none => rfl
    | some r =>
      rw [containsMarker, hx] at h
      simp at h
  have hx : extractResponse x = x := by
    unfold extractResponse
    rw [hn]
  rw [hx]
  exact hx

/-- Witness for C7: the marker-free input `"hello"` is a fixed point of
`extractResponse`. -/
theorem C7_extract_idempotent_witness :
    extractResponse (extractResponse "hello".data)
      = extractResponse "hello".data :=
  C7_extract_idempotent "hello".data (by decide)

/-- C5: for every user input (including the empty string and strings
containing `"Bot:"`), the combined prompt is exactly
`systemPrompt ++ "\nUser: " ++ userInput ++ "\nBot:"`, hence contains the
literal substring `"User: " ++ userInput ++ "\nBot:"`; when the request
payload has no prompt key the user input defaults to `""`, so the
combined text contains `"User: \nBot:"`. -/
theorem C5_prompt_assembly (sp ui : String) :
    combinedPrompt sp ui = sp ++ "\nUser: " ++ ui ++ "\nBot:" ∧
    (∃ pre post : List Char,
      (combinedPrompt sp ui).data
        = pre ++ ("User: ".data ++ ui.data ++ "\nBot:".data) ++ post) ∧
    userInputOf none = "" ∧
    (∃ pre post : List Char,
      (combinedPrompt sp (userInputOf none)).data
        = pre ++ "User: \nBot:".data ++ post) := by
  have h1 : "\nUser: ".data = '\n' :: "User: ".data := by decide
  have h2 : "User: \nBot:".data = "User: ".data ++ "\nBot:".data := by decide
  refine ⟨rfl, ⟨sp.data ++ ['\n'], [], ?_⟩, rfl, ⟨sp.data ++ ['\n'], [], ?_⟩⟩
  · simp [combinedPrompt, String.data_append, h1]
  · simp [combinedPrompt, userInputOf, String.data_append, h1, h2]

/-- C4: the evaluation report records `evaluation_passed` as the boolean
`perplexity ≤ threshold` (true exactly at the boundary), `main` writes
that same report, and the process exit code is 0 when
`perplexity ≤ threshold` and 1 otherwise. -/
theorem C4_threshold_boundary (p t : ℚ) (ss : List (String × String))
    (out : Bool) :
    ((buildEvaluationResults p t ss).evaluation_passed = true ↔ p ≤ t) ∧
    (buildEvaluationResults t t ss).evaluation_passed = true ∧
    (evalMain (.ok p) (.ok ss) true t).1 = some (buildEvaluationResults p t ss) ∧
    ((evalMain (.ok p) (.ok ss) out t).2 = 0 ↔ p ≤ t) ∧
    ((evalMain (.ok p) (.ok ss) out t).2 = 1 ↔ t < p) := by
  refine ⟨by simp [buildEvaluationResults], by simp [buildEvaluationResults],
    rfl, ?_, ?_⟩ <;>
    by_cases h : p ≤ t <;>
      simp [evalMain, exitCode, mainSuccess, buildEvaluationResults, h,
        lt_iff_not_le]

/-- C9: when computing perplexity or generating samples raises, the
exception propagates out of `main` — the output result file is never
written (not even partially) and the process exit code is non-zero. -/
theorem C9_no_output_on_error (perp : Except PyError ℚ)
    (samples : Except PyError (List (String × String)))
    (output_file : Bool) (threshold : ℚ)
    (h : (∃ e, perp = .error e) ∨ (∃ e, samples = .error e)) :
    (evalMain perp samples output_file threshold).1 = none ∧
    (evalMain perp samples output_file threshold).2 ≠ 0 := by
  rcases h with ⟨e, rfl⟩ | ⟨e, rfl⟩
  · exact ⟨rfl, by simp [evalMain]⟩
  · cases perp with
    | error e2 => exact ⟨rfl, by simp [evalMain]⟩
    | ok p => exact ⟨rfl, by simp [evalMain]⟩

/-- Witness for C9: a `ZeroDivisionError` during perplexity computation
leaves no output file and a non-zero exit code. -/
theorem C9_no_output_on_error_witness :
    (evalMain (.error .zeroDivisionError) (.ok []) true 1000).1 = none ∧
    (evalMain (.error .zeroDivisionError) (.ok []) true 1000).2 ≠ 0 :=
  C9_no_output_on_error (.error .zeroDivisionError) (.ok []) true 1000
    (Or.inl ⟨.zeroDivisionError, rfl⟩)

/-- C6 counterexample: with a tokenizer that maps the combined text to
zero tokens, the handler does not signal any error — it still returns a
200 JSON response, so no non-2xx JSON error body is produced.  (The
length cap, `max_new_tokens = 50`, is a positive constant, so the other
error condition cannot arise at all.) -/
theorem C6_counterexample :
    (fun _ : String => ([] : List Nat)) (combinedPrompt "" (userInputOf none))
      = ([] : List Nat) ∧
    generate_text (fun _ => []) (fun _ ids => ids) (fun _ => "") "" none
      = { status := 200, body := "" } := by
  exact ⟨rfl, by decide⟩

/-- C6 (amended): the handler performs no generation validation: its
length cap is the constant `50` (so a non-positive cap never occurs),
and for every tokenizer — including one producing zero tokens for the
combined text — every request on which the external calls return yields
an HTTP 200 response; no error is signalled by the handler itself. -/
theorem C6_no_generation_validation (encode : String → List Nat)
    (generate : GenerationConfig → List Nat → List Nat)
    (decode : List Nat → String) (sp : String) (payload : Option String) :
    appGenerationConfig.max_new_tokens = 50 ∧
    0 < appGenerationConfig.max_new_tokens ∧
    (generate_text encode generate decode sp payload).status = 200 :=
  ⟨rfl, by decide, rfl⟩

/-- C8 counterexample: with a GCS path, a failed download (exit 1) falls
back to local creation, but the subsequent failed upload (exit 1) raises
`CalledProcessError`, which propagates out of `main` — the run is fatal,
refuting "neither a failed download nor a failed upload is fatal". -/
theorem C8_counterexample :
    create_main true false true 1 1 = .error .calledProcessError := rfl

/-- C8 (amended): a failed GCS download is recoverable — `main` falls
back to the local download/training path and completes (when the upload
succeeds) — but a failed upload raises `CalledProcessError`, which
propagates out of `main` and is fatal to the run. -/
theorem C8_download_recoverable_upload_fatal (train force_train : Bool)
    (de ue : Nat) (hde : de ≠ 0) (hue : ue ≠ 0) :
    create_main train force_train true de 0 = .ok .savedLocally ∧
    create_main train force_train true de ue = .error .calledProcessError := by
  have hdl : download_model_from_gcs de = false := by
    simp [download_model_from_gcs, gsutilCp, hde]
  constructor
  · simp [create_main, hdl, upload_model_to_gcs, gsutilCp]
  · simp [create_main, hdl, upload_model_to_gcs, gsutilCp, hue]

/-- Witness for C8 (amended): download exit 1 with upload exit 0 ends in
a locally saved model; download exit 1 with upload exit 2 is fatal. -/
theorem C8_download_recoverable_upload_fatal_witness :
    create_main true false true 1 0 = .ok .savedLocally ∧
    create_main true false true 1 2 = .error .calledProcessError :=
  C8_download_recoverable_upload_fatal true false 1 2 (by decide) (by decide)

/-- C10: the response is decoded solely from the generation output
strictly beyond the input length: two models whose outputs agree beyond
the input length produce identical responses (whatever tokens they echo
for the prompt), and a model returning `input ++ tail` yields exactly
the post-processed decoding of `tail`. -/
theorem C10_only_new_tokens_decoded (encode : String → List Nat)
    (g₁ g₂ : GenerationConfig → List Nat → List Nat)
    (decode : List Nat → String) (sp : String) (payload : Option String)
    (h : ∀ ids, (g₁ appGenerationConfig ids).drop ids.length
        = (g₂ appGenerationConfig ids).drop ids.length) :
    generate_text encode g₁ decode sp payload
      = generate_text encode g₂ decode sp payload ∧
    (∀ tail : List Nat,
      generate_text encode (fun _ ids => ids ++ tail) decode sp payload
        = { status := 200,
            body := String.mk (extractResponse (decode tail).data) }) := by
  constructor
  · simp only [generate_text, h]
  · intro tail
    simp only [generate_text, List.drop_left]

/-- Witness for C10: two stub models that echo the prompt differently
(one verbatim, one shifted by one) but append the same new token produce
the same response. -/
theorem C10_only_new_tokens_decoded_witness :
    generate_text (fun _ => [1, 2]) (fun _ ids => ids ++ [7])
        (fun l => if l = [7] then "new" else "echoed") "sys" (some "hi")
      = generate_text (fun _ => [1, 2])
          (fun _ ids => ids.map (fun x => x + 1) ++ [7])
          (fun l => if l = [7] then "new" else "echoed") "sys" (some "hi") :=
  (C10_only_new_tokens_decoded (fun _ => [1, 2]) (fun _ ids => ids ++ [7])
    (fun _ ids => ids.map (fun x => x + 1) ++ [7])
    (fun l => if l = [7] then "new" else "echoed") "sys" (some "hi")
    (fun ids => by
      rw [List.drop_left, ← List.length_map ids (fun x => x + 1),
        List.drop_left])).1

end TinyLLM
